import Mathlib

/-!
Verification of the wasm compile orchestration layer.

Shallow embedding of `src/compiler/wasm/src/compile.rs`: the `compile`
entry point, the dependency linker `add_noir_lib`, and the artifact
shapers `preprocess_program` / `preprocess_contract`.

The crate graph, `prepare_crate`, `prepare_dependency`, the driver-level
`add_dep`, and `CrateName` parsing live in other parts of the repository
(`noirc_frontend` / `noirc_driver`) that are not part of the sources at
hand; those are modelled from the specification (see the doc comments).
The frontend (`compile_main` / `compile_contract`) and the optimizer
(`nargo::ops::optimize_program` / `optimize_contract`) are external
collaborators, modelled as opaque function parameters of `compile`.

Rust panics (`unwrap`, `expect`, `panic!`) model as the `.error` branch
of `Except String _` carrying the panic message: an unrecoverable abort
of the whole invocation, distinct from the recoverable
`Err(JsCompileError)` channel of `compile`'s result.
-/

set_option autoImplicit false

/-- The fixed backend identifier constant (`BACKEND_IDENTIFIER`, compile.rs line 25). -/
def BACKEND_IDENTIFIER : String := "acvm-backend-barretenberg"

/-- A dependency descriptor as deserialized from the caller
(`struct Dependency`, compile.rs lines 27-31). `package_root` is a
path-like string. -/
structure Dependency where
  name : String
  package_root : String
  deriving DecidableEq, Repr

/-- Modelled from the spec: the crate graph represents compilation units
and named dependency edges. `crates` is the list of known crate ids in
insertion order (`iter_keys` order); `deps` is the list of named edges
`(from-crate, edge name, to-crate)` in insertion order. -/
structure CrateGraph where
  crates : List Nat
  deps : List (Nat × String × Nat)
  deriving DecidableEq, Repr

/-- Bounded reachability over an edge list: is there a path (of length at
most `fuel`) from `a` to `b`? A path in a finite edge list never needs
more steps than there are edges, so `fuel = es.length` is exact. -/
def reachableFuel (es : List (Nat × String × Nat)) : Nat → Nat → Nat → Bool
  | 0, a, b => a == b
  | fuel + 1, a, b =>
    a == b || (es.filter (fun e => e.1 == a)).any (fun e => reachableFuel es fuel e.2.2 b)

/-- Modelled from the spec: path existence in the crate graph, used by the
cycle check of edge insertion. -/
def CrateGraph.hasPath (g : CrateGraph) (a b : Nat) : Bool :=
  reachableFuel g.deps g.deps.length a b

/-- Modelled from the spec (§4.1 `add_edge`): adding the edge
`from --name--> to` fails (to be surfaced as a fatal, non-recoverable
error by the callers) exactly when it would close a cycle, i.e. when a
path from `to` back to `from` already exists. Duplicate edge names from
one crate are not rejected: per §4.2 duplicate descriptor names
"are not deduplicated and will each create fresh edges". -/
def CrateGraph.addDep (g : CrateGraph) (a : Nat) (nm : String) (b : Nat) :
    Except Unit CrateGraph :=
  if g.hasPath b a then .error ()
  else .ok { g with deps := g.deps ++ [(a, nm, b)] }

/-- The compilation context: the file-resolution capability plus the
crate graph and the distinguished crate ids (`Context` holds the
`FileManager` and `CrateGraph` in the source). `files` records the
source paths registered so far (the `FileManager`'s view). -/
structure Context where
  read_file : String → Except Unit String
  files : List String
  crateGraph : CrateGraph
  rootCrateId : Nat
  stdlibCrateId : Nat

/-- A fresh context over a file resolver (compile.rs lines 56-59:
`FileManager::new(root, resolver)`, `CrateGraph::default()`,
`Context::new`). -/
def Context.new (read_file : String → Except Unit String) : Context :=
  { read_file := read_file, files := [], crateGraph := ⟨[], []⟩,
    rootCrateId := 0, stdlibCrateId := 0 }

/-- Modelled from the spec: `prepare_crate` registers the always-present
builtin (stdlib) crate and the root crate for the entry point, links the
root crate to the stdlib under the name "std", and returns the root
crate id. Crate ids are allocated sequentially; the cycle check of the
single edge insertion trivially passes on the fresh two-crate graph, so
it is elided here. -/
def prepare_crate (context : Context) (entry_point : String) : Context × Nat :=
  let stdId := context.crateGraph.crates.length
  let g1 : CrateGraph := { context.crateGraph with crates := context.crateGraph.crates ++ [stdId] }
  let rootId := g1.crates.length
  let g2 : CrateGraph := { g1 with crates := g1.crates ++ [rootId] }
  let g3 : CrateGraph := { g2 with deps := g2.deps ++ [(rootId, "std", stdId)] }
  ({ context with
      files := context.files ++ ["std/lib.nr", entry_point],
      crateGraph := g3,
      rootCrateId := rootId,
      stdlibCrateId := stdId }, rootId)

/-- Modelled from the spec (§4.2 step 1): `prepare_dependency` resolves
the library's entry source unit and registers a new crate node for it,
returning the fresh crate id. -/
def prepare_dependency (context : Context) (entry_path : String) : Context × Nat :=
  let libId := context.crateGraph.crates.length
  ({ context with
      files := context.files ++ [entry_path],
      crateGraph := { context.crateGraph with
        crates := context.crateGraph.crates ++ [libId] } }, libId)

/-- A crate name character is valid when it is alphanumeric or an
underscore. -/
def validCrateNameChar (ch : Char) : Bool := ch.isAlphanum || ch == '_'

/-- Modelled from the spec: a dependency name is a "non-empty
identifier"; parsing (`CrateName::from_str`) fails on malformed names.
On success the validated name is the string itself. -/
def CrateName.fromStr (s : String) : Except Unit String :=
  if (!s.isEmpty) && s.data.all validCrateNameChar then .ok s else .error ()

/-- Modelled from the spec: the driver-level `add_dep` wraps the graph's
edge insertion; a cycle is an unrecoverable abort
(`.expect("Cyclic dependency triggered")` in `noirc_driver`). -/
def add_dep (context : Context) (this_crate : Nat) (depends_on : Nat) (crate_name : String) :
    Except String Context :=
  match context.crateGraph.addDep this_crate crate_name depends_on with
  | .error _ => .error "Cyclic dependency triggered"
  | .ok g => .ok { context with crateGraph := g }

/-- The full-mesh propagation loop of `add_noir_lib` (compile.rs lines
134-139): for each crate id in `others`, add an edge to the new library
crate under the library's name; a failed insertion aborts with the ICE
panic message naming the library. -/
def addMeshEdges (library_name : String) (library_crate_id : Nat) :
    Context → List Nat → Except String Context
  | context, [] => .ok context
  | context, crate_id :: rest =>
    match context.crateGraph.addDep crate_id library_name library_crate_id with
    | .error _ =>
      .error ("ICE: Cyclic error triggered by " ++ library_name ++ " library")
    | .ok g => addMeshEdges library_name library_crate_id { context with crateGraph := g } rest

/-- The linker `add_noir_lib` (compile.rs lines 113-140): register the library's
crate, parse its declared name (`unwrap`: abort on failure), link the
root crate to it, then run full-mesh propagation over every existing
crate other than the new library crate, the root crate and the stdlib
crate. -/
def add_noir_lib (context : Context) (library : Dependency) : Except String Context :=
  let path_to_lib := library.package_root ++ "/src/lib.nr"
  let pd := prepare_dependency context path_to_lib
  let context := pd.1
  let library_crate_id := pd.2
  match CrateName.fromStr library.name with
  | .error _ => .error "called Result::unwrap() on an Err value"
  | .ok library_name =>
    match add_dep context context.rootCrateId library_crate_id library_name with
    | .error msg => .error msg
    | .ok context =>
      let root_crate_id := context.rootCrateId
      let stdlib_crate_id := context.stdlibCrateId
      let other_crate_ids := context.crateGraph.crates.filter (fun crate_id =>
        crate_id != library_crate_id && crate_id != root_crate_id
          && crate_id != stdlib_crate_id)
      addMeshEdges library_name library_crate_id context other_crate_ids

/-- The dependency loop of `compile` (compile.rs lines 75-77): link each
descriptor in order; an abort in any `add_noir_lib` call aborts the rest. -/
def linkDeps : Context → List Dependency → Except String Context
  | context, [] => .ok context
  | context, d :: rest =>
    match add_noir_lib context d with
    | .error msg => .error msg
    | .ok context => linkDeps context rest

/-- Collect the per-element deserialization results of the dependency
array (compile.rs lines 66-73): any element that fails to deserialize
aborts (`.expect("Could not deserialize dependency argument")`). -/
def collectDeps : List (Except Unit Dependency) → Except Unit (List Dependency)
  | [] => .ok []
  | d :: rest =>
    match d with
    | .error _ => .error ()
    | .ok dep =>
      match collectDeps rest with
      | .error _ => .error ()
      | .ok deps => .ok (dep :: deps)

/-- Deserialization, `dependencies.map(...).unwrap_or_default()` (compile.rs lines 64-74):
an omitted dependency array is the empty list. -/
def deserializeDependencies (dependencies : Option (List (Except Unit Dependency))) :
    Except Unit (List Dependency) :=
  match dependencies with
  | none => .ok []
  | some raw => collectDeps raw

/-- The target arithmetic-circuit dialect (`acvm::Language`); `compile`
fixes `PLONKCSat { width: 3 }`. The opcode-support predicate is derived
from the language by the external `default_is_opcode_supported` and is
the optimizer collaborator's business. -/
inductive Acvm.Language where
  | PLONKCSat (width : Nat)
  deriving DecidableEq, Repr

/-- The frontend's compiled program (`CompiledProgram`): the fields this
layer carries — content hash, ABI and circuit — with opaque payloads. -/
structure CompiledProgram where
  hash : Nat
  abi : String
  circuit : String
  deriving DecidableEq, Repr

/-- One function of a frontend-compiled contract (`ContractFunction`). -/
structure ContractFunction where
  name : String
  function_type : String
  is_internal : Bool
  abi : String
  bytecode : String
  deriving DecidableEq, Repr

/-- The frontend's compiled contract (`CompiledContract`). -/
structure CompiledContract where
  name : String
  functions : List ContractFunction
  events : List String
  deriving DecidableEq, Repr

/-- The serialization-stable program artifact (`PreprocessedProgram`). -/
structure PreprocessedProgram where
  hash : Nat
  backend : String
  abi : String
  bytecode : String
  deriving DecidableEq, Repr

/-- One function of the serialization-stable contract artifact
(`PreprocessedContractFunction`). -/
structure PreprocessedContractFunction where
  name : String
  function_type : String
  is_internal : Bool
  abi : String
  bytecode : String
  deriving DecidableEq, Repr

/-- The serialization-stable contract artifact (`PreprocessedContract`). -/
structure PreprocessedContract where
  name : String
  backend : String
  functions : List PreprocessedContractFunction
  events : List String
  deriving DecidableEq, Repr

/-- The external collaborators consumed by `compile`: the frontend
(`compile_main` / `compile_contract`, which read the context and the
root crate id; the fixed default `CompileOptions` carry no further
information) and the optimizer (`nargo::ops::optimize_program` /
`optimize_contract`, which receive the target dialect; the
opcode-support predicate is determined by that dialect). Failures are
opaque to this layer. -/
structure Collaborators where
  compile_main : Context → Nat → Except Unit CompiledProgram
  compile_contract : Context → Nat → Except Unit CompiledContract
  optimize_program : CompiledProgram → Acvm.Language → Except Unit CompiledProgram
  optimize_contract : CompiledContract → Acvm.Language → Except Unit CompiledContract

/-- The observable outcome of one `compile` invocation: an unrecoverable
abort (Rust panic) with its message, a recoverable
`Err(JsCompileError)` with its message, or a successful artifact of one
of the two shapes. -/
inductive CompileResult where
  | fatal (msg : String)
  | failure (msg : String)
  | program (p : PreprocessedProgram)
  | contract (c : PreprocessedContract)
  deriving DecidableEq, Repr

/-- The shaper `preprocess_program` (compile.rs lines 142-149). -/
def preprocess_program (program : CompiledProgram) : PreprocessedProgram :=
  { hash := program.hash,
    backend := BACKEND_IDENTIFIER,
    abi := program.abi,
    bytecode := program.circuit }

/-- The shaper `preprocess_contract` (compile.rs lines 151-170). -/
def preprocess_contract (contract : CompiledContract) : PreprocessedContract :=
  let preprocessed_functions := contract.functions.map (fun func =>
    { name := func.name,
      function_type := func.function_type,
      is_internal := func.is_internal,
      abi := func.abi,
      bytecode := func.bytecode : PreprocessedContractFunction })
  { name := contract.name,
    backend := BACKEND_IDENTIFIER,
    functions := preprocessed_functions,
    events := contract.events }

/-- The entry point `compile` (compile.rs lines 48-111): build a fresh context, register
the root crate, deserialize and link the dependencies, then run the
frontend, the optimizer and the artifact shaper for the mode selected by
`contracts.unwrap_or_default()`. -/
def compile (entry_point : String) (contracts : Option Bool)
    (dependencies : Option (List (Except Unit Dependency)))
    (read_file : String → Except Unit String)
    (ext : Collaborators) : CompileResult :=
  let context := Context.new read_file
  let pc := prepare_crate context entry_point
  let crate_id := pc.2
  match deserializeDependencies dependencies with
  | .error _ => .fatal "Could not deserialize dependency argument"
  | .ok deps =>
    match linkDeps pc.1 deps with
    | .error msg => .fatal msg
    | .ok context =>
      let np_language := Acvm.Language.PLONKCSat 3
      if contracts.getD false then
        match ext.compile_contract context crate_id with
        | .error _ => .failure "Failed to compile contract"
        | .ok compiled_contract =>
          match ext.optimize_contract compiled_contract np_language with
          | .error _ => .fatal "Contract optimization failed"
          | .ok optimized_contract => .contract (preprocess_contract optimized_contract)
      else
        match ext.compile_main context crate_id with
        | .error _ => .failure "Failed to compile program"
        | .ok compiled_program =>
          match ext.optimize_program compiled_program np_language with
          | .error _ => .fatal "Program optimization failed"
          | .ok optimized_program => .program (preprocess_program optimized_program)

/-- The crate graph has the edge `a --nm--> b`. -/
def hasEdge (g : CrateGraph) (a : Nat) (nm : String) (b : Nat) : Prop :=
  (a, nm, b) ∈ g.deps

instance (g : CrateGraph) (a : Nat) (nm : String) (b : Nat) : Decidable (hasEdge g a nm b) := by
  unfold hasEdge; infer_instance

/-- Whether a linking step succeeded. -/
def linkOk {α : Type} : Except String α → Bool
  | .ok _ => true
  | .error _ => false

/-- The crate graph of a linking result (the empty graph on abort). -/
def graphOfResult : Except String Context → CrateGraph
  | .ok context => context.crateGraph
  | .error _ => ⟨[], []⟩

/-- The message of a linking abort (junk on success; only consulted
under a failure hypothesis). -/
def errorMsg : Except String Context → String
  | .error msg => msg
  | .ok _ => ""

/-- The context produced by `prepare_crate` on a fresh context: stdlib
crate 0, root crate 1, the edge root → stdlib named "std". -/
def initialContext (read_file : String → Except Unit String) (entry_point : String) : Context :=
  { read_file := read_file,
    files := ["std/lib.nr", entry_point],
    crateGraph := ⟨[0, 1], [(1, "std", 0)]⟩,
    rootCrateId := 1,
    stdlibCrateId := 0 }

/-- Whether a declared dependency name parses as a crate name. -/
def nameOk (s : String) : Bool :=
  match CrateName.fromStr s with
  | .ok _ => true
  | .error _ => false

/-- The invariant maintained by linking, for a context holding `n`
crates: ids are the sequentially allocated `0, ..., n-1`, the stdlib
crate is 0 and the root crate 1, and every edge leaves a registered
crate. -/
def LinkInv (context : Context) (n : Nat) : Prop :=
  context.crateGraph.crates = List.range n ∧ 2 ≤ n ∧
    context.rootCrateId = 1 ∧ context.stdlibCrateId = 0 ∧
    ∀ e ∈ context.crateGraph.deps, e.1 < n

/-- A concrete file resolver used to exercise the theorems. -/
def rfDemo : String → Except Unit String := fun _ => Except.ok "fn main()"

/-- A second resolver, syntactically different from `rfDemo` but
returning the same contents on every path. -/
def rfDemo2 : String → Except Unit String :=
  fun p => if true then Except.ok "fn main()" else Except.error ()

/-- A concrete compiled program used to exercise the theorems. -/
def progDemo : CompiledProgram := ⟨7, "main-abi", "main-circuit"⟩

/-- A concrete compiled contract used to exercise the theorems. -/
def contractDemo : CompiledContract :=
  ⟨"Token", [⟨"transfer", "secret", false, "fn-abi", "fn-bytecode"⟩], ["Transfer"]⟩

/-- Collaborators for which the frontend and the optimizer always
succeed (the optimizer acting as the identity). -/
def extDemo : Collaborators :=
  { compile_main := fun _ _ => Except.ok progDemo,
    compile_contract := fun _ _ => Except.ok contractDemo,
    optimize_program := fun p _ => Except.ok p,
    optimize_contract := fun c _ => Except.ok c }

/-- Collaborators for which the frontend always fails. -/
def extFrontendFails : Collaborators :=
  { compile_main := fun _ _ => Except.error (),
    compile_contract := fun _ _ => Except.error (),
    optimize_program := fun p _ => Except.ok p,
    optimize_contract := fun c _ => Except.ok c }

/-- Collaborators for which the frontend succeeds but the optimizer
always fails. -/
def extOptimizerFails : Collaborators :=
  { compile_main := fun _ _ => Except.ok progDemo,
    compile_contract := fun _ _ => Except.ok contractDemo,
    optimize_program := fun _ _ => Except.error (),
    optimize_contract := fun _ _ => Except.error () }

/-- A hand-built context in which the crate graph already has an edge
out of crate 3, so that mesh propagation toward crate 3 closes a
cycle. -/
def ctxCyclic : Context :=
  { read_file := rfDemo, files := [],
    crateGraph := ⟨[0, 1, 2, 3], [(3, "x", 2)]⟩,
    rootCrateId := 1, stdlibCrateId := 0 }

theorem prepare_crate_on_new (rf : String → Except Unit String) (e : String) :
    prepare_crate (Context.new rf) e = (initialContext rf e, 1) := rfl

/-- C10: When the dependencies argument is omitted entirely (`None`),
`compile` behaves exactly as with an empty dependency list, and linking
an empty list performs no work: the context is returned unchanged, with
no library crate registered and no dependency edge added. -/
theorem compile_none_deps_eq_empty_deps :
    (∀ (e : String) (cf : Option Bool) (rf : String → Except Unit String)
        (ext : Collaborators),
      compile e cf none rf ext = compile e cf (some []) rf ext) ∧
    (∀ context : Context, linkDeps context [] = .ok context) := by
  constructor
  · intro e cf rf ext
    rfl
  · intro context
    rfl

/-- C7: `preprocess_program` and `preprocess_contract` are pure total
mappings (total Lean functions with no failure path by type): the
program hash, ABI and bytecode, the contract name, event list and, for
each function in order, the name, kind tag, internal-visibility flag,
ABI and bytecode are carried across unchanged, with only the fixed
backend identifier added. -/
theorem preprocess_carries_all_fields (p : CompiledProgram) (c : CompiledContract) :
    (preprocess_program p).hash = p.hash ∧
    (preprocess_program p).backend = BACKEND_IDENTIFIER ∧
    (preprocess_program p).abi = p.abi ∧
    (preprocess_program p).bytecode = p.circuit ∧
    (preprocess_contract c).name = c.name ∧
    (preprocess_contract c).backend = BACKEND_IDENTIFIER ∧
    (preprocess_contract c).events = c.events ∧
    (preprocess_contract c).functions.length = c.functions.length ∧
    (preprocess_contract c).functions.map (fun f => f.name)
      = c.functions.map (fun f => f.name) ∧
    (preprocess_contract c).functions.map (fun f => f.function_type)
      = c.functions.map (fun f => f.function_type) ∧
    (preprocess_contract c).functions.map (fun f => f.is_internal)
      = c.functions.map (fun f => f.is_internal) ∧
    (preprocess_contract c).functions.map (fun f => f.abi)
      = c.functions.map (fun f => f.abi) ∧
    (preprocess_contract c).functions.map (fun f => f.bytecode)
      = c.functions.map (fun f => f.bytecode) := by
  refine ⟨rfl, rfl, rfl, rfl, rfl, rfl, rfl, ?_, ?_, ?_, ?_, ?_, ?_⟩ <;>
    simp [preprocess_contract, List.map_map, Function.comp]

/-- C2: the `contracts` flag strictly selects the output variant: a
program-shaped success implies the flag (after defaulting) was `false`,
and a contract-shaped success implies it was `true`; neither mode can
return the other variant. -/
theorem compile_contracts_flag_selects_variant
    (e : String) (cf : Option Bool) (rd : Option (List (Except Unit Dependency)))
    (rf : String → Except Unit String) (ext : Collaborators) :
    (∀ p : PreprocessedProgram,
      compile e cf rd rf ext = .program p → cf.getD false = false) ∧
    (∀ c : PreprocessedContract,
      compile e cf rd rf ext = .contract c → cf.getD false = true) := by
  constructor <;> intro x h <;> simp only [compile] at h <;>
    (repeat' split at h) <;> simp_all

/-- C3: the backend identifier field of every successful artifact,
program or contract, equals the fixed constant
"acvm-backend-barretenberg", whatever the optimizer produced. -/
theorem compile_backend_identifier_fixed
    (e : String) (cf : Option Bool) (rd : Option (List (Except Unit Dependency)))
    (rf : String → Except Unit String) (ext : Collaborators) :
    (∀ p : PreprocessedProgram,
      compile e cf rd rf ext = .program p → p.backend = "acvm-backend-barretenberg") ∧
    (∀ c : PreprocessedContract,
      compile e cf rd rf ext = .contract c → c.backend = "acvm-backend-barretenberg") := by
  constructor <;> intro x h <;> simp only [compile] at h <;>
    (repeat' split at h) <;> (try simp_all) <;> rw [← h] <;>
    simp [preprocess_program, preprocess_contract, BACKEND_IDENTIFIER]

theorem add_noir_lib_name_parse_abort (context : Context) (lib : Dependency)
    (h : CrateName.fromStr lib.name = .error ()) :
    add_noir_lib context lib = .error "called Result::unwrap() on an Err value" := by
  simp only [add_noir_lib, h]

/-- C5: whenever the external frontend fails, `compile` returns the
single opaque error value "Failed to compile program" in program mode
and "Failed to compile contract" in contract mode; no artifact
accompanies it. -/
theorem compile_frontend_failure_opaque_error
    (e : String) (cf : Option Bool) (rd : Option (List (Except Unit Dependency)))
    (rf : String → Except Unit String) (ext : Collaborators)
    (deps : List Dependency) (ctx : Context)
    (h1 : deserializeDependencies rd = .ok deps)
    (h2 : linkDeps (initialContext rf e) deps = .ok ctx) :
    (cf.getD false = false → ext.compile_main ctx 1 = .error () →
      compile e cf rd rf ext = .failure "Failed to compile program") ∧
    (cf.getD false = true → ext.compile_contract ctx 1 = .error () →
      compile e cf rd rf ext = .failure "Failed to compile contract") := by
  constructor <;> intro hf hm <;>
    simp only [compile, prepare_crate_on_new, h1, h2, hf, hm] <;> simp

theorem compile_frontend_failure_opaque_error_witness :
    compile "main.nr" none (some []) rfDemo extFrontendFails
      = .failure "Failed to compile program" ∧
    compile "main.nr" (some true) (some []) rfDemo extFrontendFails
      = .failure "Failed to compile contract" :=
  ⟨(compile_frontend_failure_opaque_error "main.nr" none (some []) rfDemo
      extFrontendFails [] (initialContext rfDemo "main.nr") rfl rfl).1 rfl rfl,
   (compile_frontend_failure_opaque_error "main.nr" (some true) (some []) rfDemo
      extFrontendFails [] (initialContext rfDemo "main.nr") rfl rfl).2 rfl rfl⟩

theorem compile_contracts_flag_selects_variant_witness :
    (some true : Option Bool).getD false = true ∧
    (none : Option Bool).getD false = false :=
  ⟨(compile_contracts_flag_selects_variant "main.nr" (some true) none rfDemo extDemo).2
      (preprocess_contract contractDemo) rfl,
   (compile_contracts_flag_selects_variant "main.nr" none none rfDemo extDemo).1
      (preprocess_program progDemo) rfl⟩

theorem compile_backend_identifier_fixed_witness :
    (preprocess_program progDemo).backend = "acvm-backend-barretenberg" ∧
    (preprocess_contract contractDemo).backend = "acvm-backend-barretenberg" :=
  ⟨(compile_backend_identifier_fixed "main.nr" none none rfDemo extDemo).1
      (preprocess_program progDemo) rfl,
   (compile_backend_identifier_fixed "main.nr" (some true) none rfDemo extDemo).2
      (preprocess_contract contractDemo) rfl⟩

/-- C6: malformed dependency-descriptor deserialization, malformed
dependency-name parsing, and optimizer failure (in either mode) each
abort the entire invocation as an unrecoverable fatal outcome, never as
a structured error value through `compile`'s recoverable result
channel. -/
theorem compile_fatal_abort_paths :
    (∀ (e : String) (cf : Option Bool) (rd : Option (List (Except Unit Dependency)))
        (rf : String → Except Unit String) (ext : Collaborators),
      deserializeDependencies rd = .error () →
      compile e cf rd rf ext = .fatal "Could not deserialize dependency argument") ∧
    (∀ (context : Context) (lib : Dependency),
      CrateName.fromStr lib.name = .error () →
      add_noir_lib context lib = .error "called Result::unwrap() on an Err value") ∧
    (∀ (e : String) (cf : Option Bool) (rd : Option (List (Except Unit Dependency)))
        (rf : String → Except Unit String) (ext : Collaborators)
        (bad : Dependency) (rest : List Dependency),
      deserializeDependencies rd = .ok (bad :: rest) →
      CrateName.fromStr bad.name = .error () →
      compile e cf rd rf ext = .fatal "called Result::unwrap() on an Err value") ∧
    (∀ (e : String) (cf : Option Bool) (rd : Option (List (Except Unit Dependency)))
        (rf : String → Except Unit String) (ext : Collaborators)
        (deps : List Dependency) (ctx : Context) (cp : CompiledProgram),
      deserializeDependencies rd = .ok deps →
      linkDeps (initialContext rf e) deps = .ok ctx →
      cf.getD false = false →
      ext.compile_main ctx 1 = .ok cp →
      ext.optimize_program cp (Acvm.Language.PLONKCSat 3) = .error () →
      compile e cf rd rf ext = .fatal "Program optimization failed") ∧
    (∀ (e : String) (cf : Option Bool) (rd : Option (List (Except Unit Dependency)))
        (rf : String → Except Unit String) (ext : Collaborators)
        (deps : List Dependency) (ctx : Context) (cc : CompiledContract),
      deserializeDependencies rd = .ok deps →
      linkDeps (initialContext rf e) deps = .ok ctx →
      cf.getD false = true →
      ext.compile_contract ctx 1 = .ok cc →
      ext.optimize_contract cc (Acvm.Language.PLONKCSat 3) = .error () →
      compile e cf rd rf ext = .fatal "Contract optimization failed") := by
  refine ⟨?_, ?_, ?_, ?_, ?_⟩
  · intro e cf rd rf ext h
    simp only [compile, h]
  · intro context lib h
    exact add_noir_lib_name_parse_abort context lib h
  · intro e cf rd rf ext bad rest h1 h2
    simp only [compile, prepare_crate_on_new, h1, linkDeps,
      add_noir_lib_name_parse_abort _ bad h2]
  · intro e cf rd rf ext deps ctx cp h1 h2 hf hc ho
    simp only [compile, prepare_crate_on_new, h1, h2, hf, hc, ho]
    simp
  · intro e cf rd rf ext deps ctx cc h1 h2 hf hc ho
    simp only [compile, prepare_crate_on_new, h1, h2, hf, hc, ho]
    simp

theorem compile_fatal_abort_paths_witness :
    compile "main.nr" none (some [Except.error ()]) rfDemo extDemo
      = .fatal "Could not deserialize dependency argument" ∧
    add_noir_lib (initialContext rfDemo "main.nr") ⟨"", "libx"⟩
      = .error "called Result::unwrap() on an Err value" ∧
    compile "main.nr" none (some [Except.ok ⟨"", "libx"⟩]) rfDemo extDemo
      = .fatal "called Result::unwrap() on an Err value" ∧
    compile "main.nr" none (some []) rfDemo extOptimizerFails
      = .fatal "Program optimization failed" ∧
    compile "main.nr" (some true) (some []) rfDemo extOptimizerFails
      = .fatal "Contract optimization failed" :=
  ⟨compile_fatal_abort_paths.1 "main.nr" none (some [Except.error ()]) rfDemo extDemo rfl,
   compile_fatal_abort_paths.2.1 (initialContext rfDemo "main.nr") ⟨"", "libx"⟩ rfl,
   compile_fatal_abort_paths.2.2.1 "main.nr" none (some [Except.ok ⟨"", "libx"⟩])
     rfDemo extDemo ⟨"", "libx"⟩ [] rfl rfl,
   compile_fatal_abort_paths.2.2.2.1 "main.nr" none (some []) rfDemo extOptimizerFails
     [] (initialContext rfDemo "main.nr") progDemo rfl rfl rfl rfl rfl,
   compile_fatal_abort_paths.2.2.2.2 "main.nr" (some true) (some []) rfDemo
     extOptimizerFails [] (initialContext rfDemo "main.nr") contractDemo rfl rfl rfl rfl rfl⟩

/-- C8: two independent `compile` invocations on the same entry point
with the same empty dependency list produce identical results — in
particular equal content-hash fields of the preprocessed program —
whenever the file-resolution collaborator returns the same contents on
every path in both runs. -/
theorem compile_idempotent_same_sources
    (e : String) (ext : Collaborators)
    (f g : String → Except Unit String)
    (h : ∀ path, f path = g path) :
    compile e (some false) (some []) f ext = compile e (some false) (some []) g ext ∧
    ∀ (p₁ p₂ : PreprocessedProgram),
      compile e (some false) (some []) f ext = .program p₁ →
      compile e (some false) (some []) g ext = .program p₂ →
      p₁ = p₂ ∧ p₁.hash = p₂.hash := by
  have hfg : f = g := funext h
  subst hfg
  refine ⟨rfl, ?_⟩
  intro p₁ p₂ h₁ h₂
  rw [h₁] at h₂
  injection h₂ with h₃
  subst h₃
  exact ⟨rfl, rfl⟩

theorem compile_idempotent_same_sources_witness :
    compile "main.nr" (some false) (some []) rfDemo extDemo
      = compile "main.nr" (some false) (some []) rfDemo2 extDemo ∧
    (preprocess_program progDemo).hash = (preprocess_program progDemo).hash :=
  have h : ∀ path, rfDemo path = rfDemo2 path := fun _ => rfl
  ⟨(compile_idempotent_same_sources "main.nr" extDemo rfDemo rfDemo2 h).1,
   ((compile_idempotent_same_sources "main.nr" extDemo rfDemo rfDemo2 h).2
      (preprocess_program progDemo) (preprocess_program progDemo) rfl rfl).2⟩

theorem fromStr_of_nameOk {s : String} (h : nameOk s = true) :
    CrateName.fromStr s = .ok s := by
  by_cases hc : ((!s.isEmpty) && s.data.all validCrateNameChar) = true
  · simp [CrateName.fromStr, hc]
  · simp [nameOk, CrateName.fromStr, hc] at h

theorem reachableFuel_no_out (es : List (Nat × String × Nat)) (t : Nat)
    (h : ∀ e ∈ es, e.1 ≠ t) (fuel c : Nat) :
    reachableFuel es fuel t c = (t == c) := by
  cases fuel with
  | zero => rfl
  | succ m =>
    have hf : es.filter (fun e => e.1 == t) = [] := by
      rw [List.filter_eq_nil_iff]
      intro a ha
      simp [h a ha]
    simp [reachableFuel, hf]

theorem addDep_ok (g : CrateGraph) (a : Nat) (nm : String) (b : Nat)
    (hb : ∀ e ∈ g.deps, e.1 ≠ b) (hne : b ≠ a) :
    g.addDep a nm b = .ok { g with deps := g.deps ++ [(a, nm, b)] } := by
  unfold CrateGraph.addDep CrateGraph.hasPath
  rw [reachableFuel_no_out g.deps b hb]
  simp [hne]

theorem addMeshEdges_ok (nm : String) (lib : Nat) (others : List Nat) :
    ∀ context : Context,
    (∀ e ∈ context.crateGraph.deps, e.1 ≠ lib) →
    (∀ c ∈ others, c ≠ lib) →
    addMeshEdges nm lib context others =
      .ok { context with crateGraph := { context.crateGraph with
        deps := context.crateGraph.deps ++ others.map (fun c => (c, nm, lib)) } } := by
  induction others with
  | nil => intro context h1 h2; simp [addMeshEdges]
  | cons c rest ih =>
    intro context h1 h2
    have hc : c ≠ lib := h2 c (List.mem_cons_self c rest)
    have h3 := addDep_ok context.crateGraph c nm lib h1 (Ne.symm hc)
    simp only [addMeshEdges, h3]
    have h1' : ∀ e ∈ context.crateGraph.deps ++ [(c, nm, lib)], e.1 ≠ lib := by
      intro e he
      rcases List.mem_append.mp he with he' | he'
      · exact h1 e he'
      · simp only [List.mem_singleton] at he'
        subst he'
        exact hc
    rw [ih _ h1' (fun x hx => h2 x (List.mem_cons_of_mem c hx))]
    simp

theorem addMeshEdges_error_aux (nm : String) (lib : Nat) (others : List Nat) :
    ∀ context : Context,
    linkOk (addMeshEdges nm lib context others) = false →
    addMeshEdges nm lib context others
      = .error ("ICE: Cyclic error triggered by " ++ nm ++ " library") := by
  induction others with
  | nil => intro context h; simp [addMeshEdges, linkOk] at h
  | cons c rest ih =>
    intro context h
    simp only [addMeshEdges] at h ⊢
    cases hd : context.crateGraph.addDep c nm lib with
    | error u => simp [hd]
    | ok g =>
      rw [hd] at h
      exact ih _ h

theorem mesh_filter_mem {n c : Nat}
    (h : c ∈ (List.range (n+1)).filter (fun i => i != n && i != 1 && i != 0)) :
    c < n + 1 ∧ c ≠ n ∧ c ≠ 1 ∧ c ≠ 0 := by
  rw [List.mem_filter] at h
  obtain ⟨h1, h2⟩ := h
  simp only [bne_iff_ne, ne_eq, Bool.and_eq_true] at h2
  exact ⟨List.mem_range.mp h1, h2.1.1, h2.1.2, h2.2⟩

theorem mesh_filter_mem_of {n c : Nat} (h2 : 2 ≤ c) (hc : c < n) :
    c ∈ (List.range (n+1)).filter (fun i => i != n && i != 1 && i != 0) := by
  rw [List.mem_filter]
  refine ⟨List.mem_range.mpr (by omega), ?_⟩
  simp only [bne_iff_ne, ne_eq, Bool.and_eq_true]
  refine ⟨⟨by omega, by omega⟩, by omega⟩

theorem add_noir_lib_ok (context : Context) (n : Nat) (lib : Dependency) (nm : String)
    (hInv : LinkInv context n) (hnm : CrateName.fromStr lib.name = .ok nm) :
    ∃ context' : Context,
      add_noir_lib context lib = .ok context' ∧
      LinkInv context' (n + 1) ∧
      (∀ x ∈ context.crateGraph.deps, x ∈ context'.crateGraph.deps) ∧
      (1, nm, n) ∈ context'.crateGraph.deps ∧
      (∀ c, 2 ≤ c → c < n → (c, nm, n) ∈ context'.crateGraph.deps) := by
  obtain ⟨hcr, hn2, hroot, hstd, hdeps⟩ := hInv
  have hb : ∀ e ∈ context.crateGraph.deps, e.1 ≠ n := fun e he => Nat.ne_of_lt (hdeps e he)
  have hb' : ∀ e ∈ context.crateGraph.deps ++ [(1, nm, n)], e.1 ≠ n := by
    intro e he
    rcases List.mem_append.mp he with he' | he'
    · exact hb e he'
    · simp only [List.mem_singleton] at he'
      subst he'
      omega
  have hof : ∀ c ∈ (List.range (n+1)).filter (fun i => i != n && i != 1 && i != 0), c ≠ n :=
    fun c hcm => (mesh_filter_mem hcm).2.1
  have h3 : CrateGraph.addDep { context.crateGraph with crates := List.range (n+1) } 1 nm n
      = .ok ⟨List.range (n+1), context.crateGraph.deps ++ [(1, nm, n)]⟩ :=
    addDep_ok _ 1 nm n hb (by omega)
  have h4 : addMeshEdges nm n
      ⟨context.read_file, context.files ++ [lib.package_root ++ "/src/lib.nr"],
        ⟨List.range (n+1), context.crateGraph.deps ++ [(1, nm, n)]⟩, 1, 0⟩
      ((List.range (n+1)).filter (fun i => i != n && i != 1 && i != 0))
      = .ok ⟨context.read_file, context.files ++ [lib.package_root ++ "/src/lib.nr"],
          ⟨List.range (n+1),
            context.crateGraph.deps ++ [(1, nm, n)] ++
              ((List.range (n+1)).filter (fun i => i != n && i != 1 && i != 0)).map
                (fun c => (c, nm, n))⟩, 1, 0⟩ := by
    have h5 := addMeshEdges_ok nm n
      ((List.range (n+1)).filter (fun i => i != n && i != 1 && i != 0))
      ⟨context.read_file, context.files ++ [lib.package_root ++ "/src/lib.nr"],
        ⟨List.range (n+1), context.crateGraph.deps ++ [(1, nm, n)]⟩, 1, 0⟩ hb' hof
    simpa using h5
  have hmain : add_noir_lib context lib = .ok
      ⟨context.read_file, context.files ++ [lib.package_root ++ "/src/lib.nr"],
        ⟨List.range (n+1),
          context.crateGraph.deps ++ [(1, nm, n)] ++
            ((List.range (n+1)).filter (fun i => i != n && i != 1 && i != 0)).map
              (fun c => (c, nm, n))⟩, 1, 0⟩ := by
    simp only [add_noir_lib, prepare_dependency, hnm, hcr, List.length_range, hroot, hstd,
      add_dep, ← List.range_succ, h3, h4]
  refine ⟨_, hmain, ?_, ?_, ?_, ?_⟩
  · refine ⟨rfl, by omega, rfl, rfl, ?_⟩
    intro x hx
    rcases List.mem_append.mp hx with hx' | hx'
    · rcases List.mem_append.mp hx' with hx'' | hx''
      · exact Nat.lt_succ_of_lt (hdeps x hx'')
      · simp only [List.mem_singleton] at hx''
        subst hx''
        omega
    · obtain ⟨c, hcm, hce⟩ := List.mem_map.mp hx'
      subst hce
      exact (mesh_filter_mem hcm).1
  · intro x hx
    exact List.mem_append_left _ (List.mem_append_left _ hx)
  · exact List.mem_append_left _ (List.mem_append_right _ (List.mem_singleton.mpr rfl))
  · intro c h2c hcn
    refine List.mem_append_right _ (List.mem_map.mpr ⟨c, mesh_filter_mem_of h2c hcn, rfl⟩)

theorem linkDeps_ok (deps : List Dependency) :
    ∀ (context : Context) (n : Nat), LinkInv context n →
    (∀ d ∈ deps, nameOk d.name = true) →
    ∃ context', linkDeps context deps = .ok context' ∧
      LinkInv context' (n + deps.length) ∧
      (∀ x ∈ context.crateGraph.deps, x ∈ context'.crateGraph.deps) ∧
      ∀ j (hj : j < deps.length),
        (1, (deps.get ⟨j, hj⟩).name, n + j) ∈ context'.crateGraph.deps ∧
        ∀ c, 2 ≤ c → c < n + j → (c, (deps.get ⟨j, hj⟩).name, n + j) ∈ context'.crateGraph.deps := by
  induction deps with
  | nil =>
    intro context n hInv _
    exact ⟨context, rfl, by simpa using hInv, fun x hx => hx,
      fun j hj => absurd hj (by simp)⟩
  | cons d rest ih =>
    intro context n hInv hnames
    have hd : CrateName.fromStr d.name = .ok d.name :=
      fromStr_of_nameOk (hnames d (List.mem_cons_self d rest))
    obtain ⟨c1, h1, hInv1, hmono1, hmem1a, hmem1b⟩ := add_noir_lib_ok context n d d.name hInv hd
    obtain ⟨c2, h2, hInv2, hmono2, hj2⟩ :=
      ih c1 (n + 1) hInv1 (fun x hx => hnames x (List.mem_cons_of_mem d hx))
    refine ⟨c2, ?_, ?_, ?_, ?_⟩
    · simp only [linkDeps, h1, h2]
    · have harith : n + 1 + rest.length = n + (rest.length + 1) := by omega
      rw [harith] at hInv2
      simpa using hInv2
    · exact fun x hx => hmono2 _ (hmono1 x hx)
    · intro j hj
      cases j with
      | zero =>
        refine ⟨?_, ?_⟩
        · simpa using hmono2 _ hmem1a
        · intro c h2c hcn
          have : c < n := by simpa using hcn
          simpa using hmono2 _ (hmem1b c h2c this)
      | succ j' =>
        have hj' : j' < rest.length := by simpa using hj
        have hgot := hj2 j' hj'
        have harith : n + 1 + j' = n + (j' + 1) := by omega
        rw [harith] at hgot
        simpa using hgot

theorem initialContext_inv (rf : String → Except Unit String) (e : String) :
    LinkInv (initialContext rf e) 2 := by
  refine ⟨rfl, by omega, rfl, rfl, ?_⟩
  intro x hx
  simp only [initialContext, List.mem_singleton] at hx
  subst hx
  simp

/-- C1 (amended): after linking a list of dependency descriptors whose
names parse, linking completes and every earlier-linked library crate
gains an edge carrying each later library's declared name pointing to
that later library: for A added before B, crate A has an edge named
B's-name to B. The reverse edge (B carrying A's name to A) is not
created — propagation only attaches pre-existing crates to the newly
added library. -/
theorem linking_completes_with_forward_mesh
    (rf : String → Except Unit String) (e : String) (deps : List Dependency)
    (h : ∀ d ∈ deps, nameOk d.name = true) :
    ∃ context', linkDeps (initialContext rf e) deps = .ok context' ∧
      ∀ i j (hij : i < j) (hj : j < deps.length),
        hasEdge context'.crateGraph (2 + i) (deps.get ⟨j, hj⟩).name (2 + j) := by
  obtain ⟨c', hc', hInv', hmono, hjall⟩ :=
    linkDeps_ok deps (initialContext rf e) 2 (initialContext_inv rf e) h
  refine ⟨c', hc', ?_⟩
  intro i j hij hj
  exact (hjall j hj).2 (2 + i) (by omega) (by omega)

theorem linking_completes_with_forward_mesh_witness :
    ∃ context',
      linkDeps (initialContext rfDemo "main.nr") [⟨"a", "liba"⟩, ⟨"b", "libb"⟩]
        = .ok context' ∧
      ∀ i j (hij : i < j)
          (hj : j < ([⟨"a", "liba"⟩, ⟨"b", "libb"⟩] : List Dependency).length),
        hasEdge context'.crateGraph (2 + i)
          (([⟨"a", "liba"⟩, ⟨"b", "libb"⟩] : List Dependency).get ⟨j, hj⟩).name (2 + j) :=
  linking_completes_with_forward_mesh rfDemo "main.nr"
    [⟨"a", "liba"⟩, ⟨"b", "libb"⟩] (by decide)

/-- C1 counterexample: linking the two libraries "a" then "b" completes
and creates the edge from crate 2 (library "a") named "b" to crate 3
(library "b"), but crate 3 has no edge named "a" back to crate 2 — the
claimed "vice versa" edge does not exist. -/
theorem full_mesh_not_bidirectional :
    linkOk (linkDeps (initialContext rfDemo "main.nr")
      [⟨"a", "liba"⟩, ⟨"b", "libb"⟩]) = true ∧
    hasEdge (graphOfResult (linkDeps (initialContext rfDemo "main.nr")
      [⟨"a", "liba"⟩, ⟨"b", "libb"⟩])) 2 "b" 3 ∧
    ¬ hasEdge (graphOfResult (linkDeps (initialContext rfDemo "main.nr")
      [⟨"a", "liba"⟩, ⟨"b", "libb"⟩])) 3 "a" 2 := by
  decide

/-- C4: if adding an edge during full-mesh propagation fails (the only
failure is the cycle check), the linker aborts with the unrecoverable
internal-error message naming the offending library; and any linking
abort makes the whole `compile` invocation return the fatal outcome with
that message, never a recoverable compile-error result. -/
theorem cyclic_mesh_fatal_ice :
    (∀ (nm : String) (lib : Nat) (context : Context) (others : List Nat),
      linkOk (addMeshEdges nm lib context others) = false →
      addMeshEdges nm lib context others
        = .error ("ICE: Cyclic error triggered by " ++ nm ++ " library")) ∧
    (∀ (e : String) (cf : Option Bool) (rd : Option (List (Except Unit Dependency)))
        (rf : String → Except Unit String) (ext : Collaborators) (deps : List Dependency),
      deserializeDependencies rd = .ok deps →
      linkOk (linkDeps (initialContext rf e) deps) = false →
      compile e cf rd rf ext = .fatal (errorMsg (linkDeps (initialContext rf e) deps))) := by
  constructor
  · intro nm lib context others h
    exact addMeshEdges_error_aux nm lib others context h
  · intro e cf rd rf ext deps h1 h2
    simp only [compile, prepare_crate_on_new, h1]
    cases hres : linkDeps (initialContext rf e) deps with
    | error m => simp [errorMsg, hres]
    | ok c =>
      rw [hres] at h2
      simp [linkOk] at h2

theorem cyclic_mesh_fatal_ice_witness :
    addMeshEdges "mylib" 3 ctxCyclic [2]
      = .error ("ICE: Cyclic error triggered by " ++ "mylib" ++ " library") ∧
    compile "main.nr" none (some [Except.ok ⟨"", "libx"⟩]) rfDemo extDemo
      = .fatal (errorMsg (linkDeps (initialContext rfDemo "main.nr") [⟨"", "libx"⟩])) :=
  ⟨cyclic_mesh_fatal_ice.1 "mylib" 3 ctxCyclic [2] (by decide),
   cyclic_mesh_fatal_ice.2 "main.nr" none (some [Except.ok ⟨"", "libx"⟩]) rfDemo extDemo
     [⟨"", "libx"⟩] rfl (by decide)⟩

/-- C9: a dependency list with two descriptors sharing one declared
name links without failing: both are processed, each registers a fresh
library crate (crates 2 and 3 beside stdlib 0 and root 1), and fresh
edges under the shared name are created (root to each library, and
library 2 to library 3). -/
theorem duplicate_names_link_fresh
    (rf : String → Except Unit String) (e : String) (nm pr₁ pr₂ : String)
    (h : nameOk nm = true) :
    ∃ context', linkDeps (initialContext rf e) [⟨nm, pr₁⟩, ⟨nm, pr₂⟩] = .ok context' ∧
      context'.crateGraph.crates = [0, 1, 2, 3] ∧
      hasEdge context'.crateGraph 1 nm 2 ∧
      hasEdge context'.crateGraph 1 nm 3 ∧
      hasEdge context'.crateGraph 2 nm 3 := by
  have hnames : ∀ d ∈ ([⟨nm, pr₁⟩, ⟨nm, pr₂⟩] : List Dependency), nameOk d.name = true := by
    intro d hd
    rcases List.mem_cons.mp hd with h1 | h1
    · subst h1; exact h
    · simp only [List.mem_singleton] at h1
      subst h1; exact h
  obtain ⟨c', hc', hInv', hmono, hjall⟩ :=
    linkDeps_ok [⟨nm, pr₁⟩, ⟨nm, pr₂⟩] (initialContext rf e) 2 (initialContext_inv rf e) hnames
  refine ⟨c', hc', ?_, ?_, ?_, ?_⟩
  · rw [hInv'.1]
    rfl
  · exact (hjall 0 (by simp)).1
  · exact (hjall 1 (by simp)).1
  · exact (hjall 1 (by simp)).2 2 (by omega) (by omega)

theorem duplicate_names_link_fresh_witness :
    ∃ context',
      linkDeps (initialContext rfDemo "main.nr") [⟨"foo", "liba"⟩, ⟨"foo", "libb"⟩]
        = .ok context' ∧
      context'.crateGraph.crates = [0, 1, 2, 3] ∧
      hasEdge context'.crateGraph 1 "foo" 2 ∧
      hasEdge context'.crateGraph 1 "foo" 3 ∧
      hasEdge context'.crateGraph 2 "foo" 3 :=
  duplicate_names_link_fresh rfDemo "main.nr" "foo" "liba" "libb" (by decide)
